import Mathlib

/-!
Verification of the russh `client_exec_simple` example
(src/russh/examples/client_exec_simple.rs).

The development shallowly embeds the example program:

* `Session.call`      — the channel drain loop (source lines 137-164);
* `Session.close`     — graceful disconnect (source lines 166-171);
* `Session.connect`   — credential loading, handshake configuration and
                        the two authentication strategies (source lines 79-135);
* `Client.check_server_key` — the server-identity hook (source lines 64-69);
* the command escaper and a POSIX shell field splitter (source lines 41-49,
  with the escaping itself performed by an external crate and therefore
  modelled from the specification).

External collaborator calls (key loading, transport connect, the
authentication exchanges) are passed in as explicit outcome parameters in a
`ConnectEnv`, so the control flow of the example is modelled exactly while
the collaborator stays abstract.
-/

/-- A channel event, russh `ChannelMsg` as consumed by the drain loop of
`Session::call`.  The source matches `Data`, `ExitStatus` and discards every
other variant (`_ => {}`); the remaining variants are collapsed into `other`,
tagged so that there are infinitely many distinct ignored kinds. -/
inductive ChannelMsg
  | data (payload : List Char)
  | exitStatus (code : Nat)
  | other (kind : Nat)
  deriving DecidableEq

/-- Outcome of `Session::call`.  The Rust function returns
`anyhow::Result<u32>`; additionally it can panic through
`Option::expect`, which aborts the process instead of returning a value.
The three possibilities are kept apart so that a returned error value and a
process-crashing panic are distinguishable in the model. -/
inductive CallOutcome
  | ok (code : Nat)
  | error (msg : String)
  | panicked (msg : String)
  deriving DecidableEq

/-- Is the outcome a recoverable error value returned to the caller? -/
def CallOutcome.isRecoverable : CallOutcome → Bool
  | .error _ => true
  | _ => false

/-- Is the outcome a process-crashing panic? -/
def CallOutcome.isPanic : CallOutcome → Bool
  | .panicked _ => true
  | _ => false

/-- The drain loop of `Session::call` (source lines 144-162): state is the
recorded exit code (`let mut code = None`) and the bytes written to local
stdout so far.  `Data` payloads are appended to stdout in arrival order,
`ExitStatus` overwrites the recorded code without leaving the loop, every
other event is ignored, and the loop ends only when the stream is
exhausted (`channel.wait()` returning `None`). -/
def drainLoop : List ChannelMsg → Option Nat → List Char → Option Nat × List Char
  | [], code, out => (code, out)
  | .data payload :: rest, code, out => drainLoop rest code (out ++ payload)
  | .exitStatus c :: rest, _, out => drainLoop rest (some c) out
  | .other _ :: rest, code, out => drainLoop rest code out

/-- The connection handle owned by a `Session` (russh `client::Handle`);
its internals belong to the collaborator and are irrelevant here. -/
structure Handle where
  unit : Unit
  deriving DecidableEq

/-- The `Session` wrapper from the source: it owns exactly one connection
handle. -/
structure Session where
  session : Handle
  deriving DecidableEq

/-- `Session::call` (source lines 137-164) from the point where the channel
is open and `exec` has been issued, as a function of the channel event
stream: it runs the drain loop and then evaluates
`code.expect("program did not exit cleanly")`, which panics when no
`ExitStatus` event was ever seen.  Returns the outcome together with the
bytes written to local stdout. -/
def Session.call (events : List ChannelMsg) : CallOutcome × List Char :=
  match drainLoop events none [] with
  | (some c, out) => (.ok c, out)
  | (none, out) => (.panicked "program did not exit cleanly", out)

/-- The payload bytes of the `Data` events of a stream, in arrival order
(the output the drain loop is required to produce). -/
def dataBytes : List ChannelMsg → List Char
  | [] => []
  | .data payload :: rest => payload ++ dataBytes rest
  | .exitStatus _ :: rest => dataBytes rest
  | .other _ :: rest => dataBytes rest

/-- The exit codes carried by the `ExitStatus` events of a stream, in
order. -/
def exitCodes : List ChannelMsg → List Nat
  | [] => []
  | .exitStatus c :: rest => c :: exitCodes rest
  | .data _ :: rest => exitCodes rest
  | .other _ :: rest => exitCodes rest

/-- The last element of `l` when `l` is nonempty, else the default `d`:
the value a sequence of overwrites of an `Option` cell leaves behind. -/
def lastOr (l : List Nat) (d : Option Nat) : Option Nat :=
  match l.getLast? with
  | some c => some c
  | none => d

/-- The private key material produced by `load_secret_key`; its internals
belong to the collaborator. -/
inductive KeyPair
  | mk
  deriving DecidableEq

/-- An OpenSSH certificate produced by `load_openssh_certificate`. -/
inductive OpensshCert
  | mk
  deriving DecidableEq

/-- An RSA signature hash algorithm, as returned (doubly optional and then
flattened) by `best_supported_rsa_hash`. -/
inductive HashAlg
  | sha256
  | sha512
  deriving DecidableEq

/-- russh `PrivateKeyWithHashAlg::new(key, hash)` as built in the
public-key branch of `connect` (source lines 114-117). -/
structure PrivateKeyWithHashAlg where
  key : KeyPair
  hash : Option HashAlg
  deriving DecidableEq

/-- The result of an authentication exchange (russh `AuthResult`); the
source only inspects its `success()` method. -/
inductive AuthResult
  | success
  | failure
  deriving DecidableEq

/-- The `success()` accessor of `AuthResult`. -/
def AuthResult.succeeded : AuthResult → Bool
  | .success => true
  | .failure => false

/-- The server public key handed to the `check_server_key` hook. -/
structure PublicKey where
  bytes : List Nat
  deriving DecidableEq

/-- The handler struct `Client {}` of the source. -/
inductive Client
  | mk
  deriving DecidableEq

/-- The `check_server_key` handler of the source (lines 64-69): it ignores
the presented server public key and answers `Ok(true)`. -/
def Client.check_server_key (_self : Client) (_server_public_key : PublicKey) :
    Except String Bool :=
  .ok true

namespace kex

/-- Modelled from the spec: the identifier of the pre-RFC-8731
curve25519 key exchange, `russh::kex::CURVE25519_PRE_RFC_8731` — a constant
of the transport collaborator, whose code is not under src/. -/
def CURVE25519_PRE_RFC_8731 : String := "curve25519-sha256@libssh.org"

/-- Modelled from the spec: the identifier of the client extension-support
marker, `russh::kex::EXTENSION_SUPPORT_AS_CLIENT` — a constant of the
transport collaborator, whose code is not under src/. -/
def EXTENSION_SUPPORT_AS_CLIENT : String := "ext-info-c"

end kex

/-- The preferred-algorithms record of the transport configuration; only
the key-exchange list is relevant to the example (the source leaves every
other field at its default via `..Default::default()`). -/
structure Preferred where
  kex : List String
  deriving DecidableEq

/-- Modelled from the spec: the transport collaborator's full default
key-exchange algorithm set ("the collaborator's full default set", §4.1).
Its exact contents live in the collaborator outside src/; the spec
characterises it as the full set of supported algorithms, of which the
configuration chosen by `connect` is a deliberate strict subset. -/
def collaboratorDefaultKex : List String :=
  ["curve25519-sha256", "curve25519-sha256@libssh.org",
   "diffie-hellman-group16-sha512", "diffie-hellman-group14-sha256",
   "ext-info-c"]

/-- The collaborator's default preferred algorithms (`Preferred::default()`),
carrying the full default key-exchange set. -/
def Preferred.default : Preferred :=
  { kex := collaboratorDefaultKex }

/-- The transport configuration (russh `client::Config`); only the fields
the source sets explicitly are modelled. -/
structure Config where
  inactivityTimeoutSecs : Option Nat
  preferred : Preferred
  deriving DecidableEq

/-- The configuration built by `connect` (source lines 93-103): a five
second inactivity timeout and a key-exchange list restricted to exactly
two algorithms. -/
def connectConfig : Config :=
  { inactivityTimeoutSecs := some 5
    preferred := { kex := [kex.CURVE25519_PRE_RFC_8731, kex.EXTENSION_SUPPORT_AS_CLIENT] } }

/-- The error taxonomy of `connect`.  In the Rust source every failure is
an `anyhow::Error`; the model keeps the three provenances apart:
`credential` comes from the `?` on the two load operations, `transport`
from the `?` on collaborator calls (connect, best-hash query, the
authentication exchange itself failing at transport level), and
`authFailed` from the two `anyhow::bail!` sites. -/
inductive ConnectError
  | credential (msg : String)
  | transport (msg : String)
  | authFailed (msg : String)
  deriving DecidableEq

/-- An observable collaborator invocation performed by `connect`, recorded
in order: the transport handshake with the configuration passed to it, and
the two authentication exchanges with their arguments. -/
inductive Effect
  | transportConnect (config : Config)
  | authPublickey (user : String) (key : PrivateKeyWithHashAlg)
  | authCertificate (user : String) (key : KeyPair) (cert : OpensshCert)
  deriving DecidableEq

/-- Is the effect an invocation of the plain public-key authentication
path? -/
def Effect.isAuthPublickey : Effect → Bool
  | .authPublickey _ _ => true
  | _ => false

/-- Is the effect an invocation of the certificate-backed authentication
path? -/
def Effect.isAuthCertificate : Effect → Bool
  | .authCertificate _ _ _ => true
  | _ => false

/-- Is the effect a transport handshake? -/
def Effect.isTransportConnect : Effect → Bool
  | .transportConnect _ => true
  | _ => false

/-- Outcomes of the collaborator calls `connect` performs, supplied as an
explicit environment: `load_secret_key` and `load_openssh_certificate`
results (the paths are fixed by the caller), `client::connect` as a
function of the configuration passed to it, the `best_supported_rsa_hash`
query, and the two authentication exchanges as functions of the arguments
the source passes them. -/
structure ConnectEnv where
  load_secret_key : Except String KeyPair
  load_openssh_certificate : Except String OpensshCert
  client_connect : Config → Except String Unit
  best_supported_rsa_hash : Except String (Option (Option HashAlg))
  authenticate_publickey : String → PrivateKeyWithHashAlg → Except String AuthResult
  authenticate_openssh_cert : String → KeyPair → OpensshCert → Except String AuthResult

/-- Boolean success test for an `Except` outcome. -/
def exOk : Except String α → Bool
  | .ok _ => true
  | .error _ => false

/-- `Option::flatten`, as applied to the result of
`best_supported_rsa_hash` (source line 116). -/
def oflatten : Option (Option HashAlg) → Option HashAlg
  | some x => x
  | none => none

/-- The certificate-loading step of `connect` (source lines 87-91):
nothing is loaded when no certificate path was supplied; otherwise the
loader runs and its failure propagates (`?`). -/
def loadCertStep (openssh_cert_path : Option Unit)
    (loaded : Except String OpensshCert) : Except String (Option OpensshCert) :=
  match openssh_cert_path with
  | none => .ok none
  | some _ =>
    match loaded with
    | .error e => .error e
    | .ok c => .ok (some c)

/-- The authentication half of `connect` (source lines 109-132), after the
transport handshake succeeded: the public-key path when no certificate was
loaded, the certificate path otherwise.  Returns the result together with
the authentication effects performed. -/
def authStep (env : ConnectEnv) (user : String) (key_pair : KeyPair) :
    Option OpensshCert → Except ConnectError Session × List Effect
  | none =>
    match env.best_supported_rsa_hash with
    | .error e => (.error (.transport e), [])
    | .ok h =>
      match env.authenticate_publickey user ⟨key_pair, oflatten h⟩ with
      | .error e => (.error (.transport e), [.authPublickey user ⟨key_pair, oflatten h⟩])
      | .ok auth_res =>
        if auth_res.succeeded then
          (.ok ⟨⟨()⟩⟩, [.authPublickey user ⟨key_pair, oflatten h⟩])
        else
          (.error (.authFailed "Authentication (with publickey) failed"),
           [.authPublickey user ⟨key_pair, oflatten h⟩])
  | some cert =>
    match env.authenticate_openssh_cert user key_pair cert with
    | .error e => (.error (.transport e), [.authCertificate user key_pair cert])
    | .ok auth_res =>
      if auth_res.succeeded then
        (.ok ⟨⟨()⟩⟩, [.authCertificate user key_pair cert])
      else
        (.error (.authFailed "Authentication (with publickey+cert) failed"),
         [.authCertificate user key_pair cert])

/-- `Session::connect` (source lines 79-135): load the secret key (`?`),
load the certificate when a path was supplied (`?`), build the constrained
configuration, perform the transport handshake (`?`), then run exactly one
of the two authentication strategies.  Returns the result together with
the ordered list of collaborator invocations. -/
def Session.connect (env : ConnectEnv) (user : String)
    (openssh_cert_path : Option Unit) : Except ConnectError Session × List Effect :=
  match env.load_secret_key with
  | .error e => (.error (.credential e), [])
  | .ok key_pair =>
    match loadCertStep openssh_cert_path env.load_openssh_certificate with
    | .error e => (.error (.credential e), [])
    | .ok openssh_cert =>
      match env.client_connect connectConfig with
      | .error e => (.error (.transport e), [.transportConnect connectConfig])
      | .ok _ =>
        ((authStep env user key_pair openssh_cert).1,
         .transportConnect connectConfig :: (authStep env user key_pair openssh_cert).2)

/-- The reason codes of a graceful disconnect; the source always sends
`Disconnect::ByApplication`. -/
inductive Disconnect
  | byApplication
  | other (code : Nat)
  deriving DecidableEq

/-- `Session::close` (source lines 166-171) as a function of the
collaborator's `disconnect` operation: the source calls
`disconnect(Disconnect::ByApplication, "", "English")` and propagates its
failure with `?`, then returns `Ok(())`. -/
def Session.close (disconnect : Disconnect → String → String → Except String Unit) :
    Except String Unit :=
  match disconnect .byApplication "" "English" with
  | .error e => .error e
  | .ok _ => .ok ()

/-- Modelled from the spec: the per-token body of the command escaper
(§4.3).  The escaping itself is performed by the external `shell_escape`
crate, which is not part of this repository; the spec requires each token
to be individually shell-escaped so that a POSIX-compatible shell
reproduces it exactly.  This is the canonical POSIX single-quote escaping:
every character is literal inside single quotes except the single quote
itself, which is written as the four characters quote-backslash-quote-quote
(close the quotes, emit an escaped quote, reopen the quotes). -/
def escapeTokenBody : List Char → List Char
  | [] => []
  | c :: cs =>
    (if c = '\x27' then ['\x27', '\\', '\x27', '\x27'] else [c]) ++ escapeTokenBody cs

/-- Modelled from the spec: escaping of one argument token (§4.3): the
escaped body wrapped in single quotes, so that whitespace, double quotes,
dollar signs and backticks inside the token stay literal. -/
def shellEscape (token : List Char) : List Char :=
  '\x27' :: escapeTokenBody token ++ ['\x27']

/-- The join step of the command escaper (source lines 43-47): each token
is escaped individually and the escaped tokens are joined with single
spaces (`.join(" ")`). -/
def joinEscaped : List (List Char) → List Char
  | [] => []
  | [token] => shellEscape token
  | token :: rest => shellEscape token ++ ' ' :: joinEscaped rest

/-- State of the POSIX shell field splitter: outside quotes, inside single
quotes, inside double quotes, and the two after-a-backslash states. -/
inductive QuoteState
  | normal
  | normalEsc
  | single
  | double
  | doubleEsc
  deriving DecidableEq

/-- Is the character an unquoted POSIX field separator (IFS default:
space, tab, newline)? -/
def isIfsSep (c : Char) : Bool :=
  c = ' ' || c = '\t' || c = '\n'

/-- POSIX shell field splitting with quote removal, as a one-character-per
step state machine over the input: unquoted separator characters end the
current field; single quotes make everything up to the closing quote
literal; double quotes make everything literal except that a backslash
escapes a double quote, backslash, dollar or backtick; an unquoted
backslash escapes the next character.  A quoted empty field (as in two
adjacent single quotes) is kept, which the `started` flag tracks.  No
expansions are performed: the round-trip property below only ever feeds
the machine strings in which every dollar or backtick is quoted. -/
def splitFields : List Char → QuoteState → List Char → Bool → List (List Char) →
    List (List Char)
  | [], .normal, acc, started, fields => if started then fields ++ [acc] else fields
  | [], _, acc, _, fields => fields ++ [acc]
  | c :: rest, .normal, acc, started, fields =>
    if isIfsSep c then
      if started then splitFields rest .normal [] false (fields ++ [acc])
      else splitFields rest .normal acc false fields
    else if c = '\x27' then splitFields rest .single acc true fields
    else if c = '\x22' then splitFields rest .double acc true fields
    else if c = '\\' then splitFields rest .normalEsc acc true fields
    else splitFields rest .normal (acc ++ [c]) true fields
  | c :: rest, .normalEsc, acc, _, fields =>
    splitFields rest .normal (acc ++ [c]) true fields
  | c :: rest, .single, acc, started, fields =>
    if c = '\x27' then splitFields rest .normal acc started fields
    else splitFields rest .single (acc ++ [c]) started fields
  | c :: rest, .double, acc, started, fields =>
    if c = '\x22' then splitFields rest .normal acc started fields
    else if c = '\\' then splitFields rest .doubleEsc acc started fields
    else splitFields rest .double (acc ++ [c]) started fields
  | c :: rest, .doubleEsc, acc, started, fields =>
    if c = '\x22' || c = '\\' || c = '$' || c = '\x60' then
      splitFields rest .double (acc ++ [c]) started fields
    else splitFields rest .double (acc ++ ['\\', c]) started fields

/-- Split a character string into the fields a POSIX shell would parse it
into. -/
def shellSplit (input : List Char) : List (List Char) :=
  splitFields input .normal [] false []

/-- The full command escaper on strings: escape every token individually
and join with single spaces (source lines 43-47). -/
def escapeAndJoin (tokens : List String) : String :=
  String.mk (joinEscaped (tokens.map String.toList))

/-- POSIX shell field splitting on strings. -/
def shellSplitString (s : String) : List String :=
  (shellSplit s.toList).map String.mk

/-- A collaborator environment in which every operation succeeds and both
authentication exchanges accept. -/
def envAllOk : ConnectEnv :=
  { load_secret_key := .ok .mk
    load_openssh_certificate := .ok .mk
    client_connect := fun _ => .ok ()
    best_supported_rsa_hash := .ok (some (some .sha256))
    authenticate_publickey := fun _ _ => .ok .success
    authenticate_openssh_cert := fun _ _ _ => .ok .success }

/-- A collaborator environment in which everything succeeds at the
transport level but both authentication exchanges report failure. -/
def envAuthRejected : ConnectEnv :=
  { load_secret_key := .ok .mk
    load_openssh_certificate := .ok .mk
    client_connect := fun _ => .ok ()
    best_supported_rsa_hash := .ok (some (some .sha256))
    authenticate_publickey := fun _ _ => .ok .failure
    authenticate_openssh_cert := fun _ _ _ => .ok .failure }

/-- A collaborator environment in which loading the secret key fails. -/
def envKeyLoadFails : ConnectEnv :=
  { envAllOk with load_secret_key := .error "bad key file" }

/-- A disconnect operation that always fails, modelling an already broken
transport. -/
def brokenDisconnect : Disconnect → String → String → Except String Unit :=
  fun _ _ _ => .error "disconnect send failed"

theorem lastOr_cons (c : Nat) (l : List Nat) (d : Option Nat) :
    lastOr (c :: l) d = lastOr l (some c) := by
  cases l with
  | nil => simp [lastOr]
  | cons b bs =>
    rw [lastOr, lastOr, List.getLast?_cons_cons]
    cases h : (b :: bs).getLast? with
    | some x => rfl
    | none => exact absurd (List.getLast?_eq_none_iff.mp h) (by simp)

theorem drainLoop_eq (evs : List ChannelMsg) :
    ∀ (code : Option Nat) (out : List Char),
      drainLoop evs code out = (lastOr (exitCodes evs) code, out ++ dataBytes evs) := by
  induction evs with
  | nil => intro code out; simp [drainLoop, exitCodes, dataBytes, lastOr]
  | cons ev rest ih =>
    intro code out
    cases ev with
    | data payload => simp [drainLoop, exitCodes, dataBytes, ih, List.append_assoc]
    | exitStatus c => simp [drainLoop, exitCodes, dataBytes, ih, lastOr_cons]
    | other k => simp [drainLoop, exitCodes, dataBytes, ih]

/-- C1 (counterexample): on the stream `[Data("x")]`, which ends without an
`ExitStatus` event, `call` aborts through the `expect` panic — a
process-crashing assertion — and does not return a recoverable error
value, contrary to the claim. -/
theorem call_no_exit_status_crash_cex :
    (Session.call [ChannelMsg.data "x".toList]).1.isPanic = true
      ∧ (Session.call [ChannelMsg.data "x".toList]).1.isRecoverable = false := by
  decide

/-- C1 (amended): if the channel event stream is exhausted without ever
producing an `ExitStatus` event, `call` panics with the assertion message
"program did not exit cleanly" — a process-crashing `expect`, not a typed
recoverable error — while the payloads of all `Data` events seen before
exhaustion have still been written to local standard output. -/
theorem call_without_exit_status_panics (events : List ChannelMsg)
    (h : exitCodes events = []) :
    Session.call events
      = (CallOutcome.panicked "program did not exit cleanly", dataBytes events) := by
  unfold Session.call
  rw [drainLoop_eq, h]
  simp [lastOr]

/-- C1 (witness): the amended statement at the stream `[Data("x")]`. -/
theorem call_without_exit_status_panics_witness :
    Session.call [ChannelMsg.data "x".toList]
      = (CallOutcome.panicked "program did not exit cleanly", "x".toList) := by
  exact call_without_exit_status_panics [ChannelMsg.data "x".toList] rfl

/-- C2: for every channel event stream, `call` writes the payload bytes of
every `Data` event to local standard output in arrival order; an
`ExitStatus` event records its code without terminating the drain loop;
every other event kind leaves the loop state unchanged; and on the stream
`[Data("foo"), Data("bar"), ExitStatus(0), Data("baz")]` the local output
equals "foobarbaz" and the returned exit code is 0. -/
theorem call_writes_all_data_in_order :
    (∀ events : List ChannelMsg, (Session.call events).2 = dataBytes events)
      ∧ (∀ (events : List ChannelMsg) (code : Option Nat) (out : List Char) (c : Nat),
          drainLoop (ChannelMsg.exitStatus c :: events) code out
            = drainLoop events (some c) out)
      ∧ (∀ (events : List ChannelMsg) (code : Option Nat) (out : List Char) (k : Nat),
          drainLoop (ChannelMsg.other k :: events) code out = drainLoop events code out)
      ∧ Session.call [ChannelMsg.data "foo".toList, ChannelMsg.data "bar".toList,
          ChannelMsg.exitStatus 0, ChannelMsg.data "baz".toList]
        = (CallOutcome.ok 0, "foobarbaz".toList) := by
  refine ⟨?_, fun _ _ _ _ => rfl, fun _ _ _ _ => rfl, by decide⟩
  intro events
  unfold Session.call
  rw [drainLoop_eq]
  cases lastOr (exitCodes events) none <;> simp

/-- C10: for every channel event stream, the exit code `call` returns is
the one carried by the last `ExitStatus` event of the stream (each later
`ExitStatus` overwrites the previously recorded code), and all `Data`
payloads of the stream are still written to local standard output; stated
for streams with more than one `ExitStatus` event. -/
theorem call_returns_last_exit_status (events : List ChannelMsg) (c : Nat)
    (hlast : (exitCodes events).getLast? = some c)
    (_hmany : 1 < (exitCodes events).length) :
    Session.call events = (CallOutcome.ok c, dataBytes events) := by
  unfold Session.call
  rw [drainLoop_eq]
  simp [lastOr, hlast]

/-- C10 (witness): on `[ExitStatus(1), Data("a"), ExitStatus(7)]` the call
returns exit code 7 and output "a". -/
theorem call_returns_last_exit_status_witness :
    Session.call [ChannelMsg.exitStatus 1, ChannelMsg.data "a".toList,
        ChannelMsg.exitStatus 7]
      = (CallOutcome.ok 7, "a".toList) := by
  exact call_returns_last_exit_status _ 7 (by decide) (by decide)

/-- C3 (counterexample): when the transport's disconnect send fails,
`close` returns exactly that failure as its result — the failure is
surfaced as the primary result of the close call, contrary to the claim
that it is swallowed. -/
theorem close_surfaces_disconnect_failure_cex :
    Session.close brokenDisconnect = Except.error "disconnect send failed"
      ∧ Session.close brokenDisconnect ≠ Except.ok () := by
  refine ⟨rfl, ?_⟩
  intro h
  exact Except.noConfusion h

/-- C3 (amended): `close` returns exactly the result of the transport's
disconnect send (the `?` operator propagates a failure to the caller as
the primary result of the close call, rather than swallowing it); the
connection handle itself is only released when the `Session` value is
dropped afterwards, which happens on every exit path of the caller. -/
theorem close_returns_disconnect_result
    (disconnect : Disconnect → String → String → Except String Unit) :
    Session.close disconnect = disconnect Disconnect.byApplication "" "English" := by
  unfold Session.close
  cases h : disconnect Disconnect.byApplication "" "English" with
  | error e => rfl
  | ok u => rfl

/-- C9: the default server-identity verification hook of the reference
implementation accepts every presented server public key. -/
theorem check_server_key_accepts_any (c : Client) (k : PublicKey) :
    Client.check_server_key c k = Except.ok true := rfl

/-- C4: whenever `connect` reaches the authentication stage (key loaded,
certificate loaded when supplied, handshake succeeded), it invokes the
certificate-backed authentication path exactly once if a certificate
source was supplied and never otherwise, and the plain public-key path
exactly once if no certificate source was supplied and never otherwise —
the two paths are never both invoked in one call. -/
theorem connect_auth_path_exclusive (env : ConnectEnv) (user : String)
    (openssh_cert_path : Option Unit)
    (hkey : exOk env.load_secret_key = true)
    (hcert : openssh_cert_path.isSome = true → exOk env.load_openssh_certificate = true)
    (htrans : exOk (env.client_connect connectConfig) = true)
    (hhash : openssh_cert_path.isSome = false → exOk env.best_supported_rsa_hash = true) :
    ((Session.connect env user openssh_cert_path).2.countP Effect.isAuthCertificate
        = if openssh_cert_path.isSome then 1 else 0)
      ∧ ((Session.connect env user openssh_cert_path).2.countP Effect.isAuthPublickey
        = if openssh_cert_path.isSome then 0 else 1) := by
  cases hk : env.load_secret_key with
  | error e => rw [hk] at hkey; exact absurd hkey (by simp [exOk])
  | ok key_pair =>
    cases ht : env.client_connect connectConfig with
    | error e => rw [ht] at htrans; exact absurd htrans (by simp [exOk])
    | ok _ =>
      cases openssh_cert_path with
      | none =>
        have hh := hhash rfl
        cases hb : env.best_supported_rsa_hash with
        | error e => rw [hb] at hh; exact absurd hh (by simp [exOk])
        | ok h =>
          cases ha : env.authenticate_publickey user ⟨key_pair, oflatten h⟩ with
          | error e =>
            simp [Session.connect, loadCertStep, authStep, hk, ht, hb, ha,
              List.countP_cons, Effect.isAuthCertificate, Effect.isAuthPublickey,
              Effect.isTransportConnect]
          | ok r =>
            cases r <;>
              simp [Session.connect, loadCertStep, authStep, hk, ht, hb, ha,
                AuthResult.succeeded, List.countP_cons, Effect.isAuthCertificate,
                Effect.isAuthPublickey]
      | some u =>
        have hc := hcert rfl
        cases hcl : env.load_openssh_certificate with
        | error e => rw [hcl] at hc; exact absurd hc (by simp [exOk])
        | ok cert =>
          cases ha : env.authenticate_openssh_cert user key_pair cert with
          | error e =>
            simp [Session.connect, loadCertStep, authStep, hk, ht, hcl, ha,
              List.countP_cons, Effect.isAuthCertificate, Effect.isAuthPublickey]
          | ok r =>
            cases r <;>
              simp [Session.connect, loadCertStep, authStep, hk, ht, hcl, ha,
                AuthResult.succeeded, List.countP_cons, Effect.isAuthCertificate,
                Effect.isAuthPublickey]

/-- C4 (witness): with a certificate supplied and every collaborator call
succeeding, the certificate path is invoked exactly once and the
public-key path never. -/
theorem connect_auth_path_exclusive_witness :
    ((Session.connect envAllOk "root" (some ())).2.countP Effect.isAuthCertificate = 1)
      ∧ ((Session.connect envAllOk "root" (some ())).2.countP Effect.isAuthPublickey = 0) := by
  have h := connect_auth_path_exclusive envAllOk "root" (some ()) rfl (fun _ => rfl) rfl
    (fun hf => absurd hf (by decide))
  simpa using h

/-- C5: whenever `connect` reaches the authentication stage and the chosen
strategy reports a non-success result, `connect` fails overall with the
explicit authentication error raised by the corresponding `bail!` site — a
`ConnectError.authFailed`, distinct by construction from the `transport`
errors of handshake or network failures — and no `Session` is returned. -/
theorem connect_auth_rejection_distinct_error (env : ConnectEnv) (user : String)
    (openssh_cert_path : Option Unit)
    (hkey : exOk env.load_secret_key = true)
    (hcert : openssh_cert_path.isSome = true → exOk env.load_openssh_certificate = true)
    (htrans : exOk (env.client_connect connectConfig) = true)
    (hhash : openssh_cert_path.isSome = false → exOk env.best_supported_rsa_hash = true)
    (hpk : ∀ k, env.authenticate_publickey user k = .ok .failure)
    (hcerta : ∀ k c, env.authenticate_openssh_cert user k c = .ok .failure) :
    (Session.connect env user openssh_cert_path).1
      = Except.error (ConnectError.authFailed
          (if openssh_cert_path.isSome then "Authentication (with publickey+cert) failed"
           else "Authentication (with publickey) failed")) := by
  cases hk : env.load_secret_key with
  | error e => rw [hk] at hkey; exact absurd hkey (by simp [exOk])
  | ok key_pair =>
    cases ht : env.client_connect connectConfig with
    | error e => rw [ht] at htrans; exact absurd htrans (by simp [exOk])
    | ok _ =>
      cases openssh_cert_path with
      | none =>
        have hh := hhash rfl
        cases hb : env.best_supported_rsa_hash with
        | error e => rw [hb] at hh; exact absurd hh (by simp [exOk])
        | ok h =>
          simp [Session.connect, loadCertStep, authStep, hk, ht, hb, hpk,
            AuthResult.succeeded]
      | some u =>
        have hc := hcert rfl
        cases hcl : env.load_openssh_certificate with
        | error e => rw [hcl] at hc; exact absurd hc (by simp [exOk])
        | ok cert =>
          simp [Session.connect, loadCertStep, authStep, hk, ht, hcl, hcerta,
            AuthResult.succeeded]

/-- C5 (witness): with the public-key strategy chosen and the peer
rejecting it, `connect` fails with the explicit publickey authentication
error. -/
theorem connect_auth_rejection_distinct_error_witness :
    (Session.connect envAuthRejected "root" none).1
      = Except.error (ConnectError.authFailed "Authentication (with publickey) failed") := by
  have h := connect_auth_rejection_distinct_error envAuthRejected "root" none rfl
    (fun hf => absurd hf (by decide)) rfl (fun _ => rfl) (fun _ => rfl) (fun _ _ => rfl)
  simpa using h

/-- C7: if loading the private key fails, `connect` returns the credential
error with an empty collaborator-invocation trace — no transport
connection is opened and no handshake is attempted; likewise when a
certificate source was supplied and loading the certificate fails. -/
theorem connect_credential_failure_before_network (env : ConnectEnv) (user : String)
    (openssh_cert_path : Option Unit) :
    (∀ e, env.load_secret_key = .error e →
        Session.connect env user openssh_cert_path
          = (Except.error (ConnectError.credential e), []))
      ∧ (∀ e, openssh_cert_path.isSome = true →
          exOk env.load_secret_key = true →
          env.load_openssh_certificate = .error e →
          Session.connect env user openssh_cert_path
            = (Except.error (ConnectError.credential e), [])) := by
  constructor
  · intro e he
    simp [Session.connect, he]
  · intro e hsome hkey hce
    cases hk : env.load_secret_key with
    | error e2 => rw [hk] at hkey; exact absurd hkey (by simp [exOk])
    | ok key_pair =>
      cases openssh_cert_path with
      | none => simp at hsome
      | some u => simp [Session.connect, loadCertStep, hk, hce]

/-- C7 (witness): with a failing key loader, `connect` returns the
credential error and performs no collaborator invocation at all. -/
theorem connect_credential_failure_before_network_witness :
    Session.connect envKeyLoadFails "root" none
      = (Except.error (ConnectError.credential "bad key file"), []) :=
  (connect_credential_failure_before_network envKeyLoadFails "root" none).1
    "bad key file" rfl

theorem authStep_no_transport (env : ConnectEnv) (user : String) (key_pair : KeyPair)
    (oc : Option OpensshCert) (cfg : Config) :
    Effect.transportConnect cfg ∉ (authStep env user key_pair oc).2 := by
  cases oc with
  | none =>
    cases hb : env.best_supported_rsa_hash with
    | error e => simp [authStep, hb]
    | ok h =>
      cases ha : env.authenticate_publickey user ⟨key_pair, oflatten h⟩ with
      | error e => simp [authStep, hb, ha]
      | ok r => cases r <;> simp [authStep, hb, ha, AuthResult.succeeded]
  | some cert =>
    cases ha : env.authenticate_openssh_cert user key_pair cert with
    | error e => simp [authStep, ha]
    | ok r => cases r <;> simp [authStep, ha, AuthResult.succeeded]

theorem connect_trace_shape (env : ConnectEnv) (user : String)
    (openssh_cert_path : Option Unit) :
    (Session.connect env user openssh_cert_path).2 = []
      ∨ ∃ tr, (Session.connect env user openssh_cert_path).2
            = Effect.transportConnect connectConfig :: tr
          ∧ ∀ cfg, Effect.transportConnect cfg ∉ tr := by
  cases hk : env.load_secret_key with
  | error e => left; simp [Session.connect, hk]
  | ok key_pair =>
    cases hl : loadCertStep openssh_cert_path env.load_openssh_certificate with
    | error e => left; simp [Session.connect, hk, hl]
    | ok oc =>
      cases ht : env.client_connect connectConfig with
      | error e => right; exact ⟨[], by simp [Session.connect, hk, hl, ht], by simp⟩
      | ok _ =>
        right
        refine ⟨(authStep env user key_pair oc).2, by simp [Session.connect, hk, hl, ht], ?_⟩
        intro cfg
        exact authStep_no_transport env user key_pair oc cfg

/-- C8: every transport configuration `connect` passes to the handshake
restricts the accepted key-exchange algorithms to the explicit constrained
pair set in the source — different from, and strictly shorter than, the
collaborator's full default key-exchange set. -/
theorem connect_restricts_kex (env : ConnectEnv) (user : String)
    (openssh_cert_path : Option Unit) (cfg : Config)
    (hmem : Effect.transportConnect cfg ∈ (Session.connect env user openssh_cert_path).2) :
    cfg.preferred.kex = [kex.CURVE25519_PRE_RFC_8731, kex.EXTENSION_SUPPORT_AS_CLIENT]
      ∧ cfg.preferred.kex ≠ Preferred.default.kex
      ∧ cfg.preferred.kex.length < Preferred.default.kex.length := by
  have hcfg : cfg = connectConfig := by
    rcases connect_trace_shape env user openssh_cert_path with hnil | ⟨tr, htr, hno⟩
    · rw [hnil] at hmem; simp at hmem
    · rw [htr] at hmem
      rcases List.mem_cons.mp hmem with hhead | htail
      · exact (Effect.transportConnect.injEq cfg connectConfig).mp hhead
      · exact absurd htail (hno cfg)
  subst hcfg
  exact ⟨rfl, by decide, by decide⟩

/-- C8 (witness): the constrained configuration built by `connect`
satisfies the three properties concretely. -/
theorem connect_restricts_kex_witness :
    connectConfig.preferred.kex
        = [kex.CURVE25519_PRE_RFC_8731, kex.EXTENSION_SUPPORT_AS_CLIENT]
      ∧ connectConfig.preferred.kex ≠ Preferred.default.kex
      ∧ connectConfig.preferred.kex.length < Preferred.default.kex.length := by
  exact connect_restricts_kex envAllOk "root" none connectConfig (by decide)

theorem splitFields_cons_single (c : Char) (rest acc : List Char) (st : Bool)
    (fields : List (List Char)) :
    splitFields (c :: rest) .single acc st fields =
      if c = '\x27' then splitFields rest .normal acc st fields
      else splitFields rest .single (acc ++ [c]) st fields := rfl

theorem step_quote_in_single (rest acc : List Char) (st : Bool)
    (fields : List (List Char)) :
    splitFields ('\x27' :: rest) .single acc st fields
      = splitFields rest .normal acc st fields := by
  rw [splitFields_cons_single, if_pos rfl]

theorem step_other_in_single (c : Char) (hc : c ≠ '\x27') (rest acc : List Char)
    (st : Bool) (fields : List (List Char)) :
    splitFields (c :: rest) .single acc st fields
      = splitFields rest .single (acc ++ [c]) st fields := by
  rw [splitFields_cons_single, if_neg hc]

theorem step_backslash_in_normal (rest acc : List Char) (st : Bool)
    (fields : List (List Char)) :
    splitFields ('\\' :: rest) .normal acc st fields
      = splitFields rest .normalEsc acc true fields := by
  show (if isIfsSep '\\' then _ else _) = _
  rw [if_neg (by decide), if_neg (by decide), if_neg (by decide), if_pos rfl]

theorem step_any_in_normalEsc (c : Char) (rest acc : List Char) (st : Bool)
    (fields : List (List Char)) :
    splitFields (c :: rest) .normalEsc acc st fields
      = splitFields rest .normal (acc ++ [c]) true fields := rfl

theorem step_quote_in_normal (rest acc : List Char) (st : Bool)
    (fields : List (List Char)) :
    splitFields ('\x27' :: rest) .normal acc st fields
      = splitFields rest .single acc true fields := by
  show (if isIfsSep '\x27' then _ else _) = _
  rw [if_neg (by decide), if_pos rfl]

theorem step_space_in_normal (rest acc : List Char) (fields : List (List Char)) :
    splitFields (' ' :: rest) .normal acc true fields
      = splitFields rest .normal [] false (fields ++ [acc]) := by
  show (if isIfsSep ' ' then _ else _) = _
  rw [if_pos (by decide), if_pos rfl]

theorem splitFields_escape_body (s : List Char) : ∀ (rest acc : List Char)
    (fields : List (List Char)),
    splitFields (escapeTokenBody s ++ '\x27' :: rest) .single acc true fields
      = splitFields rest .normal (acc ++ s) true fields := by
  induction s with
  | nil =>
    intro rest acc fields
    rw [escapeTokenBody]
    rw [List.nil_append, step_quote_in_single, List.append_nil]
  | cons c cs ih =>
    intro rest acc fields
    by_cases hc : c = '\x27'
    · subst hc
      rw [escapeTokenBody, if_pos rfl]
      rw [List.append_assoc]
      rw [show (['\x27', '\\', '\x27', '\x27'] : List Char)
            ++ (escapeTokenBody cs ++ '\x27' :: rest)
          = '\x27' :: '\\' :: '\x27' :: '\x27' :: (escapeTokenBody cs ++ '\x27' :: rest)
        from rfl]
      rw [step_quote_in_single, step_backslash_in_normal, step_any_in_normalEsc,
        step_quote_in_normal, ih]
      rw [List.append_assoc]
      rfl
    · rw [escapeTokenBody, if_neg hc]
      rw [List.append_assoc, List.singleton_append]
      rw [step_other_in_single c hc, ih]
      rw [List.append_assoc, List.singleton_append]

theorem splitFields_shellEscape_token (t rest : List Char)
    (fields : List (List Char)) :
    splitFields (shellEscape t ++ rest) .normal [] false fields
      = splitFields rest .normal t true fields := by
  rw [shellEscape]
  rw [List.cons_append, List.cons_append, List.append_assoc, List.singleton_append]
  rw [step_quote_in_normal, splitFields_escape_body, List.nil_append]

theorem splitFields_joinEscaped (tokens : List (List Char)) :
    ∀ fields, splitFields (joinEscaped tokens) .normal [] false fields
      = fields ++ tokens := by
  induction tokens with
  | nil =>
    intro fields
    rw [joinEscaped]
    show (if false = true then _ else _) = _
    rw [if_neg (by decide), List.append_nil]
  | cons t ts ih =>
    intro fields
    cases ts with
    | nil =>
      rw [joinEscaped]
      rw [show shellEscape t = shellEscape t ++ [] from (List.append_nil _).symm]
      rw [splitFields_shellEscape_token]
      show (if true = true then _ else _) = _
      rw [if_pos rfl]
    | cons t2 ts2 =>
      rw [joinEscaped]
      · rw [splitFields_shellEscape_token]
        rw [step_space_in_normal, ih]
        rw [List.append_assoc, List.singleton_append]
      · exact fun h => List.noConfusion h

theorem stringMk_toList (s : String) : String.mk s.toList = s := rfl

/-- C6: for every ordered sequence of argument tokens — including tokens
containing whitespace, single quotes, double quotes, dollar signs or
backticks — escaping each token individually and joining them with single
spaces yields a command string that the POSIX shell field splitter parses
back into exactly the original token sequence. -/
theorem escape_join_shell_roundtrip (tokens : List String) :
    shellSplitString (escapeAndJoin tokens) = tokens := by
  show (splitFields (joinEscaped (tokens.map String.toList)) .normal [] false []).map
      String.mk = tokens
  rw [splitFields_joinEscaped, List.nil_append, List.map_map]
  have : (String.mk ∘ String.toList) = id := funext fun s => stringMk_toList s
  rw [this, List.map_id]
